import Mathlib

/-!
Shallow embedding of the `FormBuilder` class of the GoogleFormTS repository
(source files: the TypeScript original `src/unnamed/part_000` and its compiled
JavaScript `src/script.js`; the two agree except for two null guards in
`validateForm`, noted at that definition).

The DOM input surface (live values of the rendered inputs) is modelled as an
explicit record of functions; `localStorage` is modelled as a record holding
the two keys the program uses (`forms` and `formResponses`), with
`localStorage.clear()` erasing both.  Blocking dialogs (`prompt`, `confirm`)
are modelled as parameters carrying the dialog's result.  Methods that only
redraw the DOM without touching the collections (`renderForm`, `renderForms`)
have no state effect and are modelled only through the table projection of
`renderResponses`.
-/

set_option autoImplicit false

namespace GoogleFormTS

/-- `FormField` interface: `id`, `type` (a plain string in the source:
`"text" | "radio" | "checkbox"` in practice), `label`, optional `options`,
optional `required`. -/
structure FormField where
  id : String
  type : String
  label : String
  options : Option (List String)
  required : Option Bool
  deriving DecidableEq

/-- A JavaScript answer value as stored in a response record: a string for
text/radio inputs, an array of strings for checkbox groups. -/
inductive AnswerValue where
  | str : String → AnswerValue
  | arr : List String → AnswerValue
  deriving DecidableEq

/-- `FormResponse` interface: `formId` plus the `responses` object
(`Record<string, any>`), modelled as an insertion-ordered association list
with unique keys. -/
structure FormResponse where
  formId : String
  responses : List (String × AnswerValue)
  deriving DecidableEq

/-- The two `localStorage` keys the program uses, holding the parsed JSON
values.  `none` models an absent key. -/
structure Store where
  forms : Option (List FormField)
  formResponses : Option (List FormResponse)
  deriving DecidableEq

/-- `localStorage.clear()` leaves every key absent. -/
def Store.empty : Store := ⟨none, none⟩

/-- The in-memory state of the `FormBuilder` instance together with its
persistence mirror. -/
structure BuilderState where
  formFields : List FormField
  formResponses : List FormResponse
  store : Store
  deriving DecidableEq

/-- The live input state of the rendered DOM, read back by
`validateForm`/`submitForm`: `textValue id` is the `.value` of the text input
whose element id is `id`; `checked name` lists, in document order, the values
of the checked inputs whose `name` attribute is `name` (radio/checkbox
groups). -/
structure InputSurface where
  textValue : String → String
  checked : String → List String

/-- Lookup of `response.responses[label]` in the answers object:
first (hence unique) entry with that key, `none` when the key is absent. -/
def lookupAnswer (m : List (String × AnswerValue)) (k : String) : Option AnswerValue :=
  (m.find? (fun p => p.fst == k)).map Prod.snd

/-- JavaScript object assignment `m[k] = v`: overwrite in place when the key
exists (keys keep their insertion order), otherwise append a new entry. -/
def recordSet (m : List (String × AnswerValue)) (k : String) (v : AnswerValue) :
    List (String × AnswerValue) :=
  if m.any (fun p => p.fst == k) then
    m.map (fun p => if p.fst == k then (k, v) else p)
  else
    m ++ [(k, v)]

/-- One table cell of the response review: `response.responses[field.label]`
joined with a comma-space when it is an array, shown verbatim when it is a
string; a missing key yields `undefined`, which the `textContent` setter
turns into the empty string (blank cell). -/
def cellText : Option AnswerValue → String
  | none => ""
  | some (.str s) => s
  | some (.arr xs) => String.intercalate ", " xs

/-- The rendered response table: header row and data rows as lists of the
cells' text content. -/
structure RespTable where
  header : List String
  rows : List (List String)
  deriving DecidableEq

/-- The table built by `renderResponses` when it renders at all: header is
"Form ID" followed by the current field labels in field order; one row per
response record in record order, each cell looked up by the current field
label. -/
def respTable (fields : List FormField) (responses : List FormResponse) : RespTable :=
  { header := "Form ID" :: fields.map (·.label)
    rows := responses.map (fun r =>
      r.formId :: fields.map (fun f => cellText (lookupAnswer r.responses f.label))) }

/-- `renderResponses` (part_000 lines 271-316, script.js lines 235-274):
when both collections are non-empty it only redraws the table; otherwise it
truncates both in-memory arrays to length 0 and calls `localStorage.clear()`.
Returns the resulting state and the displayed table (`none` when no table is
rendered). -/
def renderResponses (s : BuilderState) : BuilderState × Option RespTable :=
  if 0 < s.formResponses.length ∧ 0 < s.formFields.length then
    (s, some (respTable s.formFields s.formResponses))
  else
    (⟨[], [], Store.empty⟩, none)

/-- JavaScript `String.prototype.toLowerCase` (ASCII case mapping), as an
executable map over the character list. -/
def jsToLower (s : String) : String := String.mk (s.data.map Char.toLower)

/-- JavaScript `String.prototype.trim`: drop whitespace from both ends. -/
def jsTrim (s : String) : String :=
  String.mk ((s.data.dropWhile Char.isWhitespace).reverse.dropWhile Char.isWhitespace).reverse

/-- `isValidLabel` (part_000 lines 92-100): the label is rejected when its
trim is empty, or when some existing field's label equals it after
lowercasing both sides; accepted otherwise. -/
def isValidLabel (fields : List FormField) (label : String) : Bool :=
  if jsTrim label = "" then
    false
  else
    ! fields.any (fun f => jsToLower f.label == jsToLower label)

/-- JavaScript `s.split(c)` for a single-character separator, by recursion on
the character list with the current chunk accumulated in reverse. -/
def splitCharAux (c : Char) : List Char → List Char → List String
  | [], acc => [String.mk acc.reverse]
  | x :: xs, acc =>
    if x = c then String.mk acc.reverse :: splitCharAux c xs [] else splitCharAux c xs (x :: acc)

/-- JavaScript `s.split(c)`: `"".split(",") = [""]`, `",".split(",") = ["", ""]`,
`"a,b".split(",") = ["a", "b"]`. -/
def jsSplit (s : String) (c : Char) : List String :=
  splitCharAux c s.data []

/-- The user-visible message shown when an add-field attempt is rejected. -/
def invalidLabelMessage : String :=
  "Field label is invalid or already exists. Please choose a different label."

/-- `addField` (part_000 lines 103-107): push the field, save the `forms`
key, redraw the preview (no further state effect). -/
def addField (field : FormField) (s : BuilderState) : BuilderState :=
  { s with
    formFields := s.formFields ++ [field]
    store := { s.store with forms := some (s.formFields ++ [field]) } }

/-- The add-field click handler (part_000 lines 45-74): read the label and
type inputs, ask the required prompt, reject invalid labels with an error
message and no state change; otherwise build the field (options split on
commas and trimmed for radio/checkbox, absent for other types, id
`type-timestamp`) and add it, clearing the error message.  Returns the new
state and the text of the error-message region. -/
def addFieldClick (label ty opts : String) (required : Bool) (now : Nat)
    (s : BuilderState) : BuilderState × String :=
  if ! isValidLabel s.formFields label then
    (s, invalidLabelMessage)
  else
    let options : Option (List String) :=
      if ty = "radio" ∨ ty = "checkbox" then some ((jsSplit opts ',').map jsTrim)
      else none
    let field : FormField :=
      { id := ty ++ "-" ++ toString now
        type := ty
        label := label
        options := options
        required := some required }
    (addField field s, "")

/-- Replace the label of the first field whose id matches (the source finds
the field object with `find` and mutates it in place). -/
def setLabelFirst : List FormField → String → String → List FormField
  | [], _, _ => []
  | f :: fs, id, l =>
    if f.id == id then { f with label := l } :: fs else f :: setLabelFirst fs id l

/-- `editField` (part_000 lines 115-126): locate the field by id; when
found, issue the edit prompt (its result is the `promptResult` parameter,
`none` modelling cancellation); any non-null result — the empty string
included — is assigned as the new label, followed by save and re-render of
preview and response table.  Unknown id or cancellation leaves the state
untouched. -/
def editField (id : String) (promptResult : Option String) (s : BuilderState) : BuilderState :=
  match s.formFields.find? (fun f => f.id == id) with
  | none => s
  | some _ =>
    match promptResult with
    | none => s
    | some l =>
      let fields := setLabelFirst s.formFields id l
      (renderResponses
        { s with formFields := fields, store := { s.store with forms := some fields } }).fst

/-- `deleteField` (part_000 lines 129-134): keep the fields whose id
differs, save, and re-render preview and response table. -/
def deleteField (id : String) (s : BuilderState) : BuilderState :=
  let fields := s.formFields.filter (fun f => f.id != id)
  (renderResponses
    { s with formFields := fields, store := { s.store with forms := some fields } }).fst

/-- The `responses` object assembled by `submitForm` (part_000 lines
166-181): iterate over the fields; a text field always writes
`responses[label] = input.value`; a radio field writes the first checked
value of its group only when one exists; a checkbox field always writes the
(possibly empty) array of checked values of its group; fields of any other
type write nothing. -/
def buildResponses (fields : List FormField) (surface : InputSurface) :
    List (String × AnswerValue) :=
  fields.foldl
    (fun acc f =>
      if f.type = "text" then
        recordSet acc f.label (AnswerValue.str (surface.textValue f.id))
      else if f.type = "radio" then
        match (surface.checked f.id).head? with
        | some v => recordSet acc f.label (AnswerValue.str v)
        | none => acc
      else if f.type = "checkbox" then
        recordSet acc f.label (AnswerValue.arr (surface.checked f.id))
      else acc)
    []

/-- `submitForm` (part_000 lines 165-191): build the responses object, wrap
it in a `FormResponse` with a fresh timestamp id, push it, save the
`formResponses` key, and re-render the response table. -/
def submitForm (now : Nat) (surface : InputSurface) (s : BuilderState) : BuilderState :=
  let resp : FormResponse := ⟨toString now, buildResponses s.formFields surface⟩
  (renderResponses
    { s with
      formResponses := s.formResponses ++ [resp]
      store := { s.store with formResponses := some (s.formResponses ++ [resp]) } }).fst

/-- Whether `document.querySelector('#' + id)` finds an element: the only
elements carrying a field id are the text inputs built by `renderForm`
(radio/checkbox inputs receive only a `name` attribute), so an element with
that id exists iff some text field in the current list has that id. -/
def hasInputElem (fields : List FormField) (id : String) : Bool :=
  fields.any (fun f => f.id == id && f.type == "text")

/-- The loop body of `validateForm` over the remaining fields, carrying the
`valid` flag.  Branches follow script.js lines 109-137: a required text
field with an empty value fails and marks its input; a required
radio/checkbox field with no checked option in its group fails and calls
`input.classList.add('error')` where `input` is
`document.querySelector('#' + field.id)` — `null` unless a text input shares
that id — so this branch throws a TypeError (modelled as `Except.error ()`)
instead of completing; all passing branches only toggle the error class
(guarded by a null check in script.js).  The TypeScript original
(part_000 lines 137-162) lacks the null guards on the two passing `else`
branches and therefore throws in strictly more states; the failing branches
modelled here are identical in both files. -/
def validateGo (fields : List FormField) (surface : InputSurface) :
    List FormField → Bool → Except Unit Bool
  | [], valid => .ok valid
  | f :: fs, valid =>
    if f.required.getD false then
      if f.type = "text" && surface.textValue f.id == "" then
        validateGo fields surface fs false
      else if f.type = "radio" && (surface.checked f.id).isEmpty then
        if hasInputElem fields f.id then validateGo fields surface fs false else .error ()
      else if f.type = "checkbox" && (surface.checked f.id).isEmpty then
        if hasInputElem fields f.id then validateGo fields surface fs false else .error ()
      else validateGo fields surface fs valid
    else validateGo fields surface fs valid

/-- `validateForm` (script.js lines 109-137, part_000 lines 137-162):
`Except.error ()` models an uncaught TypeError escaping the method. -/
def validateForm (fields : List FormField) (surface : InputSurface) : Except Unit Bool :=
  validateGo fields surface fields true

/-- The submit-button click handler (part_000 lines 76-80): submit only when
validation returns true; a TypeError thrown inside `validateForm` escapes
the handler before `submitForm` can run. -/
def submitClick (now : Nat) (surface : InputSurface) (s : BuilderState) :
    Except Unit BuilderState :=
  match validateForm s.formFields surface with
  | .error e => .error e
  | .ok true => .ok (submitForm now surface s)
  | .ok false => .ok s

/-- A concrete field used in witnesses: a required text field "Name". -/
def nameField : FormField := ⟨"text-1700000000000", "text", "Name", none, some true⟩

/-- A concrete response recorded under label "Name". -/
def aliceResp : FormResponse := ⟨"1700000000001", [("Name", AnswerValue.str "Alice")]⟩

/-- A concrete state with one field and one response (both non-empty). -/
def oneEachState : BuilderState :=
  ⟨[nameField], [aliceResp], ⟨some [nameField], some [aliceResp]⟩⟩

/-- A concrete state with one field and no responses. -/
def fieldOnlyState : BuilderState := ⟨[nameField], [], ⟨some [nameField], none⟩⟩

/-- A concrete optional checkbox field "Colors". -/
def colorsField : FormField :=
  ⟨"checkbox-1700000000002", "checkbox", "Colors", some ["Red", "Blue"], some false⟩

/-- A concrete required radio field "Color". -/
def colorReqField : FormField :=
  ⟨"radio-1700000000003", "radio", "Color", some ["Red", "Blue"], some true⟩

/-- An input surface with nothing typed and nothing checked. -/
def emptySurface : InputSurface := ⟨fun _ => "", fun _ => []⟩

/-- An input surface where every text input holds "Alice" and nothing is
checked. -/
def aliceSurface : InputSurface := ⟨fun _ => "Alice", fun _ => []⟩

/-- A concrete state holding only the optional checkbox field. -/
def checkboxState : BuilderState := ⟨[colorsField], [], ⟨some [colorsField], none⟩⟩

/-- A concrete state holding only the required radio field. -/
def radioReqState : BuilderState := ⟨[colorReqField], [], ⟨some [colorReqField], none⟩⟩

/-- C1: when either collection is empty the render pass resets both
collections and wipes the whole store; when both are non-empty it changes
nothing. -/
theorem renderResponses_reset_or_preserve (s : BuilderState) :
    ((s.formFields = [] ∨ s.formResponses = []) →
      (renderResponses s).fst.formFields = [] ∧
      (renderResponses s).fst.formResponses = [] ∧
      (renderResponses s).fst.store = Store.empty) ∧
    (s.formFields ≠ [] → s.formResponses ≠ [] → (renderResponses s).fst = s) := by
  constructor
  · intro h
    have hcond : ¬ (0 < s.formResponses.length ∧ 0 < s.formFields.length) := by
      rcases h with h | h <;> simp [h]
    simp [renderResponses, hcond, Store.empty]
  · intro hf hr
    have hcond : 0 < s.formResponses.length ∧ 0 < s.formFields.length := by
      constructor
      · exact List.length_pos.mpr hr
      · exact List.length_pos.mpr hf
    simp [renderResponses, hcond]

/-- Witness for C1: a state with one field and no responses is fully reset,
and a state with one field and one response is preserved. -/
theorem renderResponses_reset_or_preserve_witness :
    ((renderResponses fieldOnlyState).fst.formFields = [] ∧
     (renderResponses fieldOnlyState).fst.formResponses = [] ∧
     (renderResponses fieldOnlyState).fst.store = Store.empty) ∧
    (renderResponses oneEachState).fst = oneEachState := by
  constructor
  · exact (renderResponses_reset_or_preserve fieldOnlyState).1 (Or.inr rfl)
  · exact (renderResponses_reset_or_preserve oneEachState).2 (by decide) (by decide)

/-- A split never produces the empty list of chunks. -/
theorem splitCharAux_ne_nil (c : Char) (xs acc : List Char) :
    splitCharAux c xs acc ≠ [] := by
  induction xs generalizing acc with
  | nil => simp [splitCharAux]
  | cons x xs ih =>
    by_cases hx : x = c <;> simp [splitCharAux, hx, ih]

/-- C7: `isValidLabel` is true iff the trimmed candidate is non-empty and no
existing label matches case-insensitively; in particular it is false on `""`
and on `"  "`. -/
theorem isValidLabel_iff (fields : List FormField) (label : String) :
    (isValidLabel fields label = true ↔
      jsTrim label ≠ "" ∧ ∀ f ∈ fields, jsToLower f.label ≠ jsToLower label) ∧
    isValidLabel fields "" = false ∧ isValidLabel fields "  " = false := by
  refine ⟨?_, ?_, ?_⟩
  · by_cases h : jsTrim label = ""
    · simp [isValidLabel, h]
    · simp [isValidLabel, h, List.any_eq_true]
  · have h0 : jsTrim "" = "" := rfl
    simp [isValidLabel, h0]
  · have h2 : jsTrim "  " = "" := by decide
    simp [isValidLabel, h2]

/-- C8: an add attempt whose label is empty after trimming or duplicates an
existing label case-insensitively is rejected: the error message is shown and
the state (fields, responses, store) is returned unchanged. -/
theorem addFieldClick_rejects (label ty opts : String) (required : Bool) (now : Nat)
    (s : BuilderState)
    (h : jsTrim label = "" ∨ ∃ f ∈ s.formFields, jsToLower f.label = jsToLower label) :
    addFieldClick label ty opts required now s = (s, invalidLabelMessage) := by
  have hinv : isValidLabel s.formFields label = false := by
    rcases h with h | ⟨f, hf, hlab⟩
    · simp [isValidLabel, h]
    · by_cases ht : jsTrim label = ""
      · simp [isValidLabel, ht]
      · simp only [isValidLabel, ht, if_false, Bool.not_eq_false', List.any_eq_true]
        exact ⟨f, hf, by simp [hlab]⟩
  simp [addFieldClick, hinv]

/-- Witness for C8: adding a case-insensitive duplicate of "Name" is
rejected without touching the state. -/
theorem addFieldClick_rejects_witness :
    addFieldClick "nAME" "text" "" true 5 fieldOnlyState =
      (fieldOnlyState, invalidLabelMessage) :=
  addFieldClick_rejects "nAME" "text" "" true 5 fieldOnlyState
    (Or.inr ⟨nameField, by simp [fieldOnlyState], by decide⟩)

/-- C10: a radio or checkbox field created through the add-field path always
carries `some` options list obtained by splitting the options input on commas
and trimming each part; that list is never empty, and the empty input yields
exactly `some [""]`. -/
theorem addFieldClick_options_nonempty (label ty opts : String) (required : Bool)
    (now : Nat) (s : BuilderState)
    (hty : ty = "radio" ∨ ty = "checkbox")
    (hvalid : isValidLabel s.formFields label = true) :
    (addFieldClick label ty opts required now s).fst.formFields =
      s.formFields ++
        [⟨ty ++ "-" ++ toString now, ty, label,
          some ((jsSplit opts ',').map jsTrim), some required⟩] ∧
    (jsSplit opts ',').map jsTrim ≠ [] ∧
    (opts = "" → (jsSplit opts ',').map jsTrim = [""]) := by
  refine ⟨?_, ?_, ?_⟩
  · simp [addFieldClick, hvalid, hty, addField]
  · intro hnil
    exact splitCharAux_ne_nil ',' opts.data [] (by simpa [jsSplit] using hnil)
  · intro h
    subst h
    decide

/-- Witness for C10: adding a checkbox field with an empty options input on an
empty builder state yields options `some [""]`. -/
theorem addFieldClick_options_nonempty_witness :
    (addFieldClick "Colors" "checkbox" "" false 7 ⟨[], [], Store.empty⟩).fst.formFields =
      [⟨"checkbox-7", "checkbox", "Colors", some [""], some false⟩] ∧
    ([""] : List String) ≠ [] := by
  have h := addFieldClick_options_nonempty "Colors" "checkbox" "" false 7
    ⟨[], [], Store.empty⟩ (Or.inr rfl) (by decide)
  refine ⟨?_, by decide⟩
  have h3 : (jsSplit "" ',').map jsTrim = [""] := h.2.2 rfl
  simpa [h3] using h.1

/-- The fields left by `deleteField` are either the filtered list or, when
the render pass tears the session down, the empty list. -/
theorem deleteField_fields_cases (s : BuilderState) (id : String) :
    (deleteField id s).formFields = s.formFields.filter (fun f => f.id != id) ∨
    (deleteField id s).formFields = [] := by
  simp only [deleteField, renderResponses]
  split
  · exact Or.inl rfl
  · exact Or.inr rfl

/-- C9: after `deleteField id` no field with that id remains, and the
remaining fields are a sublist of the original list (original relative
order). -/
theorem deleteField_removes (s : BuilderState) (id : String) :
    (∀ f ∈ (deleteField id s).formFields, f.id ≠ id) ∧
    (deleteField id s).formFields.Sublist s.formFields := by
  rcases deleteField_fields_cases s id with h | h
  · rw [h]
    constructor
    · intro f hf
      have := List.of_mem_filter hf
      simpa using this
    · exact List.filter_sublist _
  · rw [h]
    exact ⟨by intro f hf; simp at hf, List.nil_sublist _⟩

/-- When no field has the given id, `find?` misses. -/
theorem find?_id_eq_none (fields : List FormField) (id : String)
    (h : ∀ f ∈ fields, f.id ≠ id) :
    fields.find? (fun f => f.id == id) = none := by
  apply List.find?_eq_none.mpr
  intro f hf
  simp [h f hf]

/-- When no field has the given id, the filter keeps everything. -/
theorem filter_id_eq_self (fields : List FormField) (id : String)
    (h : ∀ f ∈ fields, f.id ≠ id) :
    fields.filter (fun f => f.id != id) = fields := by
  apply List.filter_eq_self.mpr
  intro f hf
  simp [h f hf]

/-- C4 (amended): `editField` with an id that matches no field is a complete
no-op for every prompt outcome.  `deleteField` with such an id removes no
field and surfaces no error, but still saves and re-renders: when both
collections are non-empty the fields and responses are unchanged and only
the `forms` key is rewritten with the unchanged list; when the response
collection is empty the render pass wipes both collections and the whole
store. -/
theorem unknownId_edit_delete (s : BuilderState) (id : String)
    (h : ∀ f ∈ s.formFields, f.id ≠ id) :
    (∀ p, editField id p s = s) ∧
    (0 < s.formFields.length → 0 < s.formResponses.length →
      (deleteField id s).formFields = s.formFields ∧
      (deleteField id s).formResponses = s.formResponses ∧
      (deleteField id s).store = { s.store with forms := some s.formFields }) ∧
    (s.formResponses = [] → deleteField id s = ⟨[], [], Store.empty⟩) := by
  have hfind := find?_id_eq_none s.formFields id h
  have hfilter := filter_id_eq_self s.formFields id h
  refine ⟨?_, ?_, ?_⟩
  · intro p
    simp [editField, hfind]
  · intro hf hr
    simp [deleteField, renderResponses, hfilter, hf, hr]
  · intro hr
    simp [deleteField, renderResponses, hfilter, hr]

/-- Witness for C4 (amended): at concrete states, editing an unknown id does
nothing; deleting an unknown id with both collections non-empty keeps both
collections; deleting an unknown id with no responses wipes everything. -/
theorem unknownId_edit_delete_witness :
    editField "ghost" (some "Z") oneEachState = oneEachState ∧
    ((deleteField "ghost" oneEachState).formFields = oneEachState.formFields ∧
     (deleteField "ghost" oneEachState).formResponses = oneEachState.formResponses ∧
     (deleteField "ghost" oneEachState).store =
       { oneEachState.store with forms := some oneEachState.formFields }) ∧
    deleteField "ghost" fieldOnlyState = ⟨[], [], Store.empty⟩ := by
  have h1 := unknownId_edit_delete oneEachState "ghost" (by decide)
  have h2 := unknownId_edit_delete fieldOnlyState "ghost" (by decide)
  exact ⟨h1.1 (some "Z"), h1.2.1 (by decide) (by decide), h2.2.2 rfl⟩

/-- C4 counterexample: with one field and zero responses, `deleteField` with
the unknown id "ghost" is not a no-op — it empties the field collection and
wipes the store. -/
theorem deleteField_unknown_not_noop :
    (deleteField "ghost" fieldOnlyState).formFields = [] ∧
    fieldOnlyState.formFields = [nameField] ∧
    (deleteField "ghost" fieldOnlyState).store = Store.empty := by
  decide

/-- `find?` by id over a decomposition whose prefix misses the id returns
the marked field. -/
theorem find?_id_append (pre post : List FormField) (fld : FormField)
    (hpre : ∀ g ∈ pre, g.id ≠ fld.id) :
    (pre ++ fld :: post).find? (fun f => f.id == fld.id) = some fld := by
  induction pre with
  | nil => simp [List.find?]
  | cons g gs ih =>
    have hg : (g.id == fld.id) = false := by
      simpa using hpre g (by simp)
    simp only [List.cons_append, List.find?_cons, hg]
    exact ih fun x hx => hpre x (by simp [hx])

/-- `setLabelFirst` over a decomposition whose prefix misses the id rewrites
exactly the marked field's label. -/
theorem setLabelFirst_append (pre post : List FormField) (fld : FormField) (l : String)
    (hpre : ∀ g ∈ pre, g.id ≠ fld.id) :
    setLabelFirst (pre ++ fld :: post) fld.id l = pre ++ { fld with label := l } :: post := by
  induction pre with
  | nil => simp [setLabelFirst]
  | cons g gs ih =>
    have hg : (g.id == fld.id) = false := by
      simpa using hpre g (by simp)
    simp only [List.cons_append, setLabelFirst, hg, Bool.false_eq_true, if_false,
      List.cons.injEq, true_and]
    exact ih fun x hx => hpre x (by simp [hx])

/-- The full state produced by an accepted edit of the first field with the
given id, when the response collection is non-empty (so the re-render keeps
the state). -/
theorem editField_state_eq (s : BuilderState) (pre post : List FormField)
    (fld : FormField) (l : String)
    (hdecomp : s.formFields = pre ++ fld :: post)
    (hpre : ∀ g ∈ pre, g.id ≠ fld.id)
    (hresp : s.formResponses ≠ []) :
    editField fld.id (some l) s =
      ⟨pre ++ { fld with label := l } :: post, s.formResponses,
        ⟨some (pre ++ { fld with label := l } :: post), s.store.formResponses⟩⟩ := by
  have hfind := find?_id_append pre post fld hpre
  have hset := setLabelFirst_append pre post fld l hpre
  have hcond : 0 < s.formResponses.length ∧
      0 < (pre ++ { fld with label := l } :: post).length := by
    refine ⟨List.length_pos.mpr hresp, ?_⟩
    simp
  simp [editField, hdecomp, hfind, hset, renderResponses, hcond]

/-- C3 (amended): when the prompt is not cancelled, `editField` assigns the
returned string — the empty string included — as the new label of the first
field with the given id (no non-empty check is performed); cancellation
leaves the state untouched.  Stated for a state whose response collection is
non-empty, so the re-render does not tear the session down. -/
theorem editField_assigns_any_label (s : BuilderState) (pre post : List FormField)
    (fld : FormField) (l : String)
    (hdecomp : s.formFields = pre ++ fld :: post)
    (hpre : ∀ g ∈ pre, g.id ≠ fld.id)
    (hresp : s.formResponses ≠ []) :
    (editField fld.id (some l) s).formFields = pre ++ { fld with label := l } :: post ∧
    editField fld.id none s = s := by
  constructor
  · rw [editField_state_eq s pre post fld l hdecomp hpre hresp]
  · have hfind := find?_id_append pre post fld hpre
    simp [editField, hdecomp, hfind]

/-- Witness for C3 (amended): on the concrete one-field one-response state,
an accepted prompt value replaces the label and a cancelled prompt changes
nothing. -/
theorem editField_assigns_any_label_witness :
    (editField nameField.id (some "FullName") oneEachState).formFields =
      [{ nameField with label := "FullName" }] ∧
    editField nameField.id none oneEachState = oneEachState := by
  have h := editField_assigns_any_label oneEachState [] [] nameField "FullName"
    rfl (by intro g hg; simp at hg) (by decide)
  exact ⟨by simpa using h.1, h.2⟩

/-- C3 counterexample: the prompt returning the empty string (OK pressed on
a cleared prompt) is not a cancellation, and `editField` assigns it,
leaving a field whose label is `""`. -/
theorem editField_empty_label_counterexample :
    nameField.label = "Name" ∧
    (editField "text-1700000000000" (some "") oneEachState).formFields.map
      FormField.label = [""] := by
  decide

/-- Indexing at the length of the prefix hits the marked element. -/
theorem get?_length_middle {α : Type} (pre : List α) (x : α) (post : List α) :
    (pre ++ x :: post).get? pre.length = some x := by
  induction pre with
  | nil => rfl
  | cons y ys ih => simpa using ih

/-- Indexing one past the head, at the prefix length, inside a mapped
decomposition hits the image of the marked element. -/
theorem get?_cons_map_middle {α β : Type} (g : α → β) (h : β) (pre : List α) (x : α)
    (post : List α) :
    (h :: (pre ++ x :: post).map g).get? (pre.length + 1) = some (g x) := by
  show ((pre ++ x :: post).map g).get? pre.length = some (g x)
  rw [List.map_append, List.map_cons]
  have hlen := get?_length_middle (pre.map g) (g x) (post.map g)
  rwa [List.length_map] at hlen

/-- C5: renaming a field (through an accepted edit prompt) while responses
recorded under its old label exist makes the response table header show the
new label at that field's column, while every record's cell in that column
is blank — the lookup by the new label misses, the old-label answers being
orphaned.  `hfresh` states that no record holds an answer under the new
label. -/
theorem rename_orphans_table (s : BuilderState) (pre post : List FormField)
    (fld : FormField) (newLabel : String)
    (hdecomp : s.formFields = pre ++ fld :: post)
    (hpre : ∀ g ∈ pre, g.id ≠ fld.id)
    (hresp : s.formResponses ≠ [])
    (hfresh : ∀ r ∈ s.formResponses, lookupAnswer r.responses newLabel = none) :
    ∃ tbl, (renderResponses (editField fld.id (some newLabel) s)).snd = some tbl ∧
      tbl.header.get? (pre.length + 1) = some newLabel ∧
      ∀ row ∈ tbl.rows, row.get? (pre.length + 1) = some "" := by
  rw [editField_state_eq s pre post fld newLabel hdecomp hpre hresp]
  have hcond : 0 < s.formResponses.length ∧
      0 < (pre ++ { fld with label := newLabel } :: post).length := by
    refine ⟨List.length_pos.mpr hresp, ?_⟩
    simp
  refine ⟨respTable (pre ++ { fld with label := newLabel } :: post) s.formResponses,
    by simp [renderResponses, hcond], ?_, ?_⟩
  · exact get?_cons_map_middle FormField.label "Form ID" pre
      { fld with label := newLabel } post
  · intro row hrow
    rcases List.mem_map.mp hrow with ⟨r, hr, rfl⟩
    have hcell := get?_cons_map_middle
      (fun f => cellText (lookupAnswer r.responses f.label)) r.formId pre
      { fld with label := newLabel } post
    rw [hcell]
    have hmiss : lookupAnswer r.responses newLabel = none := hfresh r hr
    simp [hmiss, cellText]

/-- Witness for C5: renaming "Name" to "FullName" on the concrete state with
one recorded response shows "FullName" in the header and a blank cell in
that column. -/
theorem rename_orphans_table_witness :
    ∃ tbl,
      (renderResponses (editField nameField.id (some "FullName") oneEachState)).snd =
        some tbl ∧
      tbl.header.get? 1 = some "FullName" ∧
      ∀ row ∈ tbl.rows, row.get? 1 = some "" :=
  rename_orphans_table oneEachState [] [] nameField "FullName" rfl
    (by intro g hg; simp at hg) (by decide) (by decide)

/-- A key is present in an answers object iff the `find?` underlying
`lookupAnswer` succeeds. -/
theorem lookupAnswer_isSome_iff (m : List (String × AnswerValue)) (k : String) :
    (lookupAnswer m k).isSome = true ↔ ∃ p ∈ m, p.fst = k := by
  simp [lookupAnswer, List.find?_isSome]

/-- Object assignment adds exactly the assigned key to the key set. -/
theorem recordSet_key_iff (m : List (String × AnswerValue)) (k : String) (v : AnswerValue)
    (l : String) :
    (∃ p ∈ recordSet m k v, p.fst = l) ↔ l = k ∨ ∃ p ∈ m, p.fst = l := by
  unfold recordSet
  split
  · rename_i h
    constructor
    · rintro ⟨p, hp, hpl⟩
      rcases List.mem_map.mp hp with ⟨q, hq, hqe⟩
      by_cases hqk : q.fst = k
      · left
        rw [← hpl, ← hqe]
        simp [hqk]
      · right
        refine ⟨q, hq, ?_⟩
        rw [← hpl, ← hqe]
        simp [hqk]
    · rintro (rfl | ⟨p, hp, hpl⟩)
      · rcases List.any_eq_true.mp h with ⟨q, hq, hqk⟩
        refine ⟨(l, v), List.mem_map.mpr ⟨q, hq, ?_⟩, rfl⟩
        simp only [hqk, if_true]
      · by_cases hpk : p.fst = k
        · refine ⟨(k, v), List.mem_map.mpr ⟨p, hp, by simp [hpk]⟩, ?_⟩
          show k = l
          rw [← hpk]
          exact hpl
        · exact ⟨p, List.mem_map.mpr ⟨p, hp, by simp [hpk]⟩, hpl⟩
  · constructor
    · rintro ⟨p, hp, hpl⟩
      rcases List.mem_append.mp hp with hp | hp
      · exact Or.inr ⟨p, hp, hpl⟩
      · left
        simp only [List.mem_singleton] at hp
        rw [← hpl, hp]
    · rintro (rfl | ⟨p, hp, hpl⟩)
      · exact ⟨(l, v), by simp, rfl⟩
      · exact ⟨p, List.mem_append.mpr (Or.inl hp), hpl⟩

/-- Effect of one `submitForm` loop iteration on the key set of the answers
object: a text field adds its label; a radio field adds its label exactly
when its group has a checked option; a checkbox field adds its label
unconditionally; other types add nothing. -/
theorem submitStep_key_iff (acc : List (String × AnswerValue)) (f : FormField)
    (surface : InputSurface) (l : String) :
    (∃ p ∈ (if f.type = "text" then
          recordSet acc f.label (AnswerValue.str (surface.textValue f.id))
        else if f.type = "radio" then
          match (surface.checked f.id).head? with
          | some v => recordSet acc f.label (AnswerValue.str v)
          | none => acc
        else if f.type = "checkbox" then
          recordSet acc f.label (AnswerValue.arr (surface.checked f.id))
        else acc), p.fst = l) ↔
      (∃ p ∈ acc, p.fst = l) ∨
        (f.label = l ∧ (f.type = "text" ∨ f.type = "checkbox" ∨
          (f.type = "radio" ∧ surface.checked f.id ≠ []))) := by
  by_cases ht : f.type = "text"
  · rw [if_pos ht, recordSet_key_iff]
    constructor
    · rintro (rfl | h)
      · exact Or.inr ⟨rfl, Or.inl ht⟩
      · exact Or.inl h
    · rintro (h | ⟨rfl, _⟩)
      · exact Or.inr h
      · exact Or.inl rfl
  · by_cases hr : f.type = "radio"
    · rw [if_neg ht, if_pos hr]
      cases hc : (surface.checked f.id).head? with
      | some v =>
        have hne : surface.checked f.id ≠ [] := by
          intro hnil
          rw [hnil] at hc
          simp at hc
        have hmain : (∃ p ∈ recordSet acc f.label (AnswerValue.str v), p.fst = l) ↔
            (∃ p ∈ acc, p.fst = l) ∨
              (f.label = l ∧ (f.type = "text" ∨ f.type = "checkbox" ∨
                (f.type = "radio" ∧ surface.checked f.id ≠ []))) := by
          rw [recordSet_key_iff]
          constructor
          · rintro (rfl | h)
            · exact Or.inr ⟨rfl, Or.inr (Or.inr ⟨hr, hne⟩)⟩
            · exact Or.inl h
          · rintro (h | ⟨rfl, _⟩)
            · exact Or.inr h
            · exact Or.inl rfl
        exact hmain
      | none =>
        have hnil : surface.checked f.id = [] := List.head?_eq_none_iff.mp hc
        have hmain : (∃ p ∈ acc, p.fst = l) ↔
            (∃ p ∈ acc, p.fst = l) ∨
              (f.label = l ∧ (f.type = "text" ∨ f.type = "checkbox" ∨
                (f.type = "radio" ∧ surface.checked f.id ≠ []))) := by
          constructor
          · exact Or.inl
          · rintro (h | ⟨rfl, hcon⟩)
            · exact h
            · rcases hcon with h1 | h1 | ⟨_, h2⟩
              · exact absurd h1 ht
              · rw [hr] at h1
                exact absurd h1 (by decide)
              · exact absurd hnil h2
        exact hmain
    · by_cases hcb : f.type = "checkbox"
      · rw [if_neg ht, if_neg hr, if_pos hcb, recordSet_key_iff]
        constructor
        · rintro (rfl | h)
          · exact Or.inr ⟨rfl, Or.inr (Or.inl hcb)⟩
          · exact Or.inl h
        · rintro (h | ⟨rfl, _⟩)
          · exact Or.inr h
          · exact Or.inl rfl
      · rw [if_neg ht, if_neg hr, if_neg hcb]
        constructor
        · exact Or.inl
        · rintro (h | ⟨rfl, hcon⟩)
          · exact h
          · rcases hcon with h1 | h1 | ⟨h1, _⟩
            · exact absurd h1 ht
            · exact absurd h1 hcb
            · exact absurd h1 hr

/-- Key set of the full answers object built by `submitForm`'s loop. -/
theorem buildResponses_key_iff (fields : List FormField) (surface : InputSurface)
    (l : String) :
    (∃ p ∈ buildResponses fields surface, p.fst = l) ↔
      ∃ f ∈ fields, f.label = l ∧
        (f.type = "text" ∨ f.type = "checkbox" ∨
          (f.type = "radio" ∧ surface.checked f.id ≠ [])) := by
  have main : ∀ (fs : List FormField) (acc : List (String × AnswerValue)),
      (∃ p ∈ fs.foldl
          (fun acc f =>
            if f.type = "text" then
              recordSet acc f.label (AnswerValue.str (surface.textValue f.id))
            else if f.type = "radio" then
              match (surface.checked f.id).head? with
              | some v => recordSet acc f.label (AnswerValue.str v)
              | none => acc
            else if f.type = "checkbox" then
              recordSet acc f.label (AnswerValue.arr (surface.checked f.id))
            else acc)
          acc, p.fst = l) ↔
        (∃ p ∈ acc, p.fst = l) ∨
          ∃ f ∈ fs, f.label = l ∧
            (f.type = "text" ∨ f.type = "checkbox" ∨
              (f.type = "radio" ∧ surface.checked f.id ≠ [])) := by
    intro fs
    induction fs with
    | nil =>
      intro acc
      simp
    | cons f fs ih =>
      intro acc
      rw [List.foldl_cons, ih, submitStep_key_iff, or_assoc]
      constructor
      · rintro (h | h | ⟨g, hg, hgl⟩)
        · exact Or.inl h
        · exact Or.inr ⟨f, by simp, h⟩
        · exact Or.inr ⟨g, by simp [hg], hgl⟩
      · rintro (h | ⟨g, hg, hgl⟩)
        · exact Or.inl h
        · rcases List.mem_cons.mp hg with rfl | hg
          · exact Or.inr (Or.inl hgl)
          · exact Or.inr (Or.inr ⟨g, hg, hgl⟩)
  simpa using main fields []

/-- C2 (amended): with a non-empty field list (so the re-render keeps the
appended record), `submitForm` appends exactly one new response record; its
answers hold a key `l` iff some current field labelled `l` is a text field,
is a checkbox field (which always writes the possibly-empty array of checked
values), or is a radio field with a checked option.  In particular an
unselected radio contributes no key, while an unselected checkbox does. -/
theorem submitForm_appends_record (now : Nat) (surface : InputSurface) (s : BuilderState)
    (hf : s.formFields ≠ []) :
    ∃ r, (submitForm now surface s).formResponses = s.formResponses ++ [r] ∧
      ∀ l, (lookupAnswer r.responses l).isSome = true ↔
        ∃ f ∈ s.formFields, f.label = l ∧
          (f.type = "text" ∨ f.type = "checkbox" ∨
            (f.type = "radio" ∧ surface.checked f.id ≠ [])) := by
  refine ⟨⟨toString now, buildResponses s.formFields surface⟩, ?_, ?_⟩
  · have hcond : 0 < (s.formResponses ++
        [(⟨toString now, buildResponses s.formFields surface⟩ : FormResponse)]).length ∧
        0 < s.formFields.length := by
      constructor
      · simp
      · exact List.length_pos.mpr hf
    simp [submitForm, renderResponses, hcond]
  · intro l
    rw [lookupAnswer_isSome_iff]
    exact buildResponses_key_iff s.formFields surface l

/-- Witness for C2 (amended): submitting the one-text-field state with
"Alice" typed appends exactly one record whose key set is characterized as
stated. -/
theorem submitForm_appends_record_witness :
    ∃ r, (submitForm 9 aliceSurface fieldOnlyState).formResponses =
        fieldOnlyState.formResponses ++ [r] ∧
      ∀ l, (lookupAnswer r.responses l).isSome = true ↔
        ∃ f ∈ fieldOnlyState.formFields, f.label = l ∧
          (f.type = "text" ∨ f.type = "checkbox" ∨
            (f.type = "radio" ∧ aliceSurface.checked f.id ≠ [])) :=
  submitForm_appends_record 9 aliceSurface fieldOnlyState (by decide)

/-- C2 counterexample: a checkbox field with no selection does contribute a
key — submitting the one-checkbox state with nothing checked stores the
record `{Colors: []}`, whose answers contain the key "Colors". -/
theorem submitForm_checkbox_empty_entry :
    (submitForm 9 emptySurface checkboxState).formResponses =
      [⟨"9", [("Colors", AnswerValue.arr [])]⟩] ∧
    lookupAnswer [("Colors", AnswerValue.arr [])] "Colors" =
      some (AnswerValue.arr []) := by
  decide

/-- C6 (code bug): a required radio field with no selection does not make
`validateForm` return false — the method reads
`document.querySelector('#' + field.id)`, which is null because radio inputs
carry only a `name` attribute, and the unguarded `classList.add('error')`
throws a TypeError (modelled as `Except.error ()`).  The thrown error also
aborts the submit click handler before `submitForm`, so no record is
appended, but not by the claimed false return. -/
theorem validateForm_required_radio_throws :
    validateForm [colorReqField] emptySurface = Except.error () ∧
    submitClick 9 emptySurface radioReqState = Except.error () := by
  constructor
  · rfl
  · rfl

end GoogleFormTS
